import Mathlib

/-!
Shallow embedding of the versa-forge backend (the access-control-aware
resource lifecycle: agents, categories, users, groups, agent files, and the
JWT credential codec), translated from `src/app`.  Database tables are lists
of rows; SQLAlchemy `select ... scalar_one_or_none` is `List.find?`;
commits that can violate declared UNIQUE constraints are modelled by the
corresponding membership test; raised exceptions become an `Err` result.
-/

namespace VersaForge

/-- Error taxonomy.  The first constructors model the typed business
exceptions of `app/core/exceptions.py` (the message text is kept as the
structured constructor arguments).  `nameError`, `typeError` and
`pyException` model Python runtime errors (`NameError`, `TypeError`, a bare
`Exception(...)`); `httpError` models a raised `fastapi.HTTPException`. -/
inductive Err where
  | resourceNotFound (resource ident : String)
  | duplicateResource (resource ident : String)
  | permissionDenied (msg : String)
  | unsupportedFileType (contentType : String)
  | nameError (ident : String)
  | typeError (msg : String)
  | pyException (msg : String)
  | httpError (status : Nat) (detail : String)
  deriving Repr, DecidableEq

/-! Decimal rendering of integers, the embedding of the Python string
conversion `str(n)` / `f"{n}"` for a non-negative `int`. -/

/-- The character for a decimal digit (`48` is the code point of `0`). -/
def charOfDigit (d : Nat) : Char := Char.ofNat (48 + d)

/-- Decimal digit characters of `n`, most significant first. -/
def decChars (n : Nat) : List Char :=
  if _h : n < 10 then [charOfDigit n]
  else decChars (n / 10) ++ [charOfDigit (n % 10)]
decreasing_by exact Nat.div_lt_self (by omega) (by omega)

/-- Embedding of Python `str(n)` for a natural number. -/
def decStr (n : Nat) : String := ⟨decChars n⟩

theorem decChars_lt {n : Nat} (h : n < 10) : decChars n = [charOfDigit n] := by
  rw [decChars]
  simp [h]

theorem decChars_ge {n : Nat} (h : 10 ≤ n) :
    decChars n = decChars (n / 10) ++ [charOfDigit (n % 10)] := by
  rw [decChars]
  simp [Nat.not_lt_of_ge h]

/-! The agents table (`database_models.py:108-137`) and the agent schemas
(`app/schemas/agent_schemas.py`). -/

/-- A row of the `agents` table.  `name` carries a UNIQUE constraint
(`database_models.py:117`); `id` is the autoincrement primary key. -/
structure Agent where
  id : Nat
  name : String
  description : Option String
  prompt : String
  is_public : Bool
  owner_id : Nat
  created_at : Int
  deriving Repr, DecidableEq

/-- `AgentResponse` (`app/schemas/agent_schemas.py:32-38`). -/
structure AgentResponse where
  name : String
  description : Option String
  prompt : String
  is_public : Bool
  id : Nat
  owner_id : Nat
  created_at : Int
  deriving Repr, DecidableEq

/-- `AgentResponse.model_validate(agent)`. -/
def AgentResponse.ofAgent (a : Agent) : AgentResponse :=
  { name := a.name, description := a.description, prompt := a.prompt,
    is_public := a.is_public, id := a.id, owner_id := a.owner_id,
    created_at := a.created_at }

/-- `AgentCreate` (`app/schemas/agent_schemas.py:16-19`): the base fields
plus a category-id list defaulting to `[]`. -/
structure AgentCreate where
  name : String
  description : Option String := none
  prompt : String
  is_public : Bool := false
  categories : List Nat := []
  deriving Repr, DecidableEq

/-- `AgentUpdate` (`app/schemas/agent_schemas.py:22-29`).  Every field is
optional; `none` here means the field was not present in the request
(pydantic `exclude_unset` semantics), and for `description` the inner
`Option` is the nullable column value.  The `categories` key of the source
schema names the ORM relationship rather than a column of `agents`, so it
does not take part in the row update modelled below. -/
structure AgentUpdate where
  name : Option String := none
  description : Option (Option String) := none
  prompt : Option String := none
  is_public : Option Bool := none
  categories : Option (List Nat) := none
  deriving Repr, DecidableEq

/-- The `setattr` loop of `AgentService.update_agent` over
`agent_data.model_dump(exclude_unset=True)` restricted to the columns of the
row. -/
def Agent.applyUpdate (a : Agent) (u : AgentUpdate) : Agent :=
  { a with
    name := u.name.getD a.name,
    description := match u.description with
      | some d => d
      | none => a.description,
    prompt := u.prompt.getD a.prompt,
    is_public := u.is_public.getD a.is_public }

/-- `AgentService.get_agent_by_id` (`agent_service.py:48-64`).  The query
`select(Agent).where(Agent.id == agent_id)` with `scalar_one_or_none` is
`List.find?` on the primary key.  The source then evaluates
`if not agent.is_public and agent.owner_id != user_id:` — but `user_id` is
not a parameter of the function and is not otherwise in scope, so for a
private agent the short-circuiting `and` reaches the undefined name and
Python raises `NameError`; for a public agent the conjunction
short-circuits and the row is returned. -/
def get_agent_by_id (db : List Agent) (agent_id : Nat) : Except Err AgentResponse :=
  match db.find? (fun a => a.id == agent_id) with
  | none => .error (.resourceNotFound "Agent" (decStr agent_id))
  | some agent =>
    if !agent.is_public then .error (.nameError "user_id")
    else .ok (AgentResponse.ofAgent agent)

/-- Next autoincrement id for the agents table. -/
def nextAgentId (db : List Agent) : Nat := (db.map Agent.id).foldr max 0 + 1

/-- `AgentService.create_agent` (`agent_service.py:69-89`).  The service
performs no validation: it builds the row from the request fields — the
`categories` list of the request is never read — and commits.  The commit
violates the UNIQUE constraint on `agents.name` exactly when another row
already has that name, in which case the service catches the
`SQLAlchemyError`, rolls back, and raises a bare `Exception`. -/
def create_agent (db : List Agent) (agent_data : AgentCreate) (owner_id : Nat)
    (now : Int) : Except Err AgentResponse × List Agent :=
  let new_agent : Agent :=
    { id := nextAgentId db, name := agent_data.name,
      description := agent_data.description, prompt := agent_data.prompt,
      is_public := agent_data.is_public, owner_id := owner_id,
      created_at := now }
  if db.any (fun a => a.name == agent_data.name) then
    (.error (.pyException "Failed to create agent"), db)
  else
    (.ok (AgentResponse.ofAgent new_agent), db ++ [new_agent])

/-- `AgentService.update_agent` (`agent_service.py:95-117`).  The lookup is
`select(Agent).where(Agent.id == agent_id, Agent.owner_id == owner_id)`;
when it finds no row the service raises `ResourceNotFoundException` without
touching the table, otherwise the found row (unique, since `id` is the
primary key) is updated in place and committed. -/
def update_agent (db : List Agent) (agent_id : Nat) (agent_data : AgentUpdate)
    (owner_id : Nat) : Except Err AgentResponse × List Agent :=
  match db.find? (fun a => a.id == agent_id && a.owner_id == owner_id) with
  | none => (.error (.resourceNotFound "Agent" (decStr agent_id)), db)
  | some agent =>
    let updated := agent.applyUpdate agent_data
    (.ok (AgentResponse.ofAgent updated),
      db.map (fun a => if a.id == agent.id then a.applyUpdate agent_data else a))

/-- `AgentService.delete_agent` (`agent_service.py:123-140`).  Same
`(id, owner_id)`-scoped lookup; an absent row returns `False` with no
mutation, otherwise the row is deleted by primary key and `True` is
returned. -/
def delete_agent (db : List Agent) (agent_id : Nat) (owner_id : Nat) :
    Bool × List Agent :=
  match db.find? (fun a => a.id == agent_id && a.owner_id == owner_id) with
  | none => (false, db)
  | some agent => (true, db.filter (fun a => a.id != agent.id))

/-! Sample rows used by the concrete (witness / evaluation) theorems. -/

/-- A private agent owned by user 7. -/
def agentA : Agent :=
  { id := 1, name := "agent-a", description := none, prompt := "p",
    is_public := false, owner_id := 7, created_at := 0 }

/-- A public agent owned by user 7. -/
def agentB : Agent := { agentA with id := 2, name := "agent-b", is_public := true }

/-- C1: the claim says `get_agent_by_id` returns the agent iff it is public or
the requester owns it, with not-found and permission-denied failures
otherwise.  The code diverges on every private agent: `user_id` is not a
parameter of `get_agent_by_id` (its body, docstring and both call sites
expect one), so the ownership test raises `NameError` — even the owner of a
private agent cannot retrieve it.  Public and absent agents behave as
claimed. -/
theorem c1_private_agent_lookup_raises_name_error :
    get_agent_by_id [agentA, agentB] 1 = .error (.nameError "user_id")
    ∧ get_agent_by_id [agentA, agentB] 2 = .ok (AgentResponse.ofAgent agentB)
    ∧ get_agent_by_id [agentA, agentB] 3
        = .error (.resourceNotFound "Agent" (decStr 3)) :=
  ⟨rfl, rfl, rfl⟩

/-- C2: an update or delete request by a user who does not own the agent with
the requested id (including requests naming an absent id) mutates nothing —
the table is returned unchanged — and does not report success:
`update_agent` raises `ResourceNotFoundException` and `delete_agent` returns
`false`, because both lookups are scoped by the `(agent_id, owner_id)`
pair. -/
theorem c2_non_owner_update_delete_are_no_ops
    (db : List Agent) (agent_id owner_id : Nat) (agent_data : AgentUpdate)
    (h : ∀ a ∈ db, ¬(a.id = agent_id ∧ a.owner_id = owner_id)) :
    update_agent db agent_id agent_data owner_id
        = (.error (.resourceNotFound "Agent" (decStr agent_id)), db)
      ∧ delete_agent db agent_id owner_id = (false, db) := by
  have hfind : db.find? (fun a => a.id == agent_id && a.owner_id == owner_id) = none := by
    rw [List.find?_eq_none]
    intro a ha
    simp only [Bool.and_eq_true, beq_iff_eq]
    exact h a ha
  exact ⟨by simp [update_agent, hfind], by simp [delete_agent, hfind]⟩

def dbC2 : List Agent := [agentA]

theorem c2_witness :
    update_agent dbC2 1 {} 9 = (.error (.resourceNotFound "Agent" (decStr 1)), dbC2)
      ∧ delete_agent dbC2 1 9 = (false, dbC2) :=
  c2_non_owner_update_delete_are_no_ops dbC2 1 9 {} (by decide)

/-- The request of the repository test
`test_create_public_agent_without_categories`. -/
def publicAgentNoCategories : AgentCreate :=
  { name := "Public Agent", prompt := "p", is_public := true, categories := [] }

/-- C3: the claim (and the repository test `test_agent_creation.py`) say a
creation request with `is_public` true and an empty category list fails with
an invalid-input error before any row is inserted.  `create_agent` contains
no such check and never reads the `categories` field: the request succeeds
and the agent row is inserted. -/
theorem c3_public_agent_without_categories_is_inserted :
    publicAgentNoCategories.is_public = true
    ∧ publicAgentNoCategories.categories = []
    ∧ (create_agent [] publicAgentNoCategories 7 0).1
        = .ok (AgentResponse.ofAgent
            { id := 1, name := "Public Agent", description := none, prompt := "p",
              is_public := true, owner_id := 7, created_at := 0 })
    ∧ (create_agent [] publicAgentNoCategories 7 0).2.length = 1 :=
  ⟨rfl, rfl, rfl, rfl⟩

/-- C9: agent names are globally unique.  Creating an agent whose name is
already used by any existing agent (whoever owns it) fails — the UNIQUE
constraint on `agents.name` makes the commit raise, the service rolls back
and re-raises — leaving the table unchanged; and `create_agent` preserves
the all-names-distinct invariant. -/
theorem c9_agent_names_globally_unique
    (db : List Agent) (agent_data : AgentCreate) (owner_id : Nat) (now : Int) :
    ((∃ a ∈ db, a.name = agent_data.name) →
        create_agent db agent_data owner_id now
          = (.error (.pyException "Failed to create agent"), db))
    ∧ ((db.map Agent.name).Nodup →
        ((create_agent db agent_data owner_id now).2.map Agent.name).Nodup) := by
  constructor
  · rintro ⟨a, ha, hname⟩
    have hany : db.any (fun a => a.name == agent_data.name) = true :=
      List.any_eq_true.mpr ⟨a, ha, by simp [hname]⟩
    simp [create_agent, hany]
  · intro hnd
    by_cases hany : db.any (fun a => a.name == agent_data.name) = true
    · simpa [create_agent, hany] using hnd
    · have hnot : ∀ a ∈ db, a.name ≠ agent_data.name := by
        intro a ha heq
        exact hany (List.any_eq_true.mpr ⟨a, ha, by simp [heq]⟩)
      have : (db.map Agent.name ++ [agent_data.name]).Nodup := by
        rw [List.nodup_append]
        refine ⟨hnd, by simp, ?_⟩
        intro x hx
        simp only [List.mem_singleton]
        rcases List.mem_map.mp hx with ⟨a, ha, rfl⟩
        exact hnot a ha
      simpa [create_agent, hany]

def dbC9 : List Agent := [agentA]

theorem c9_witness :
    create_agent dbC9 { name := "agent-a", prompt := "q" } 9 5
        = (.error (.pyException "Failed to create agent"), dbC9)
      ∧ ((create_agent dbC9 { name := "agent-c", prompt := "q" } 9 5).2.map
          Agent.name).Nodup :=
  ⟨(c9_agent_names_globally_unique dbC9 { name := "agent-a", prompt := "q" } 9 5).1
      ⟨agentA, by simp [dbC9], rfl⟩,
    (c9_agent_names_globally_unique dbC9 { name := "agent-c", prompt := "q" } 9 5).2
      (by simp [dbC9])⟩

/-! Categories (`database_models.py:84-102`, `categories_service.py`).  The
uniqueness check runs `Category.name.ilike(candidate)`, so the embedding
includes SQL LIKE pattern matching (case-insensitive, `%` and `_`
wildcards) and Python `str.strip()`. -/

/-- SQL LIKE matching of a string against a pattern, case-insensitively
(PostgreSQL `ILIKE`): `%` matches any run of characters, `_` any single
character, and any other pattern character matches itself up to case. -/
def ilikeMatch : List Char → List Char → Bool
  | [], s => s.isEmpty
  | p :: ps, s =>
    if p = '%' then
      ilikeMatch ps s ||
        (match s with
          | [] => false
          | _ :: s₂ => ilikeMatch (p :: ps) s₂)
    else
      match s with
      | [] => false
      | c :: s₂ =>
        (if p = '_' then true else p.toLower == c.toLower) && ilikeMatch ps s₂
termination_by p s => p.length + s.length
decreasing_by all_goals simp_arith

theorem ilikeMatch_nil (s : List Char) : ilikeMatch [] s = s.isEmpty := by
  rw [ilikeMatch.eq_def]

theorem ilikeMatch_pct (ps s : List Char) :
    ilikeMatch ('%' :: ps) s
      = (ilikeMatch ps s
          || match s with
            | [] => false
            | _ :: s₂ => ilikeMatch ('%' :: ps) s₂) := by
  rw [ilikeMatch.eq_def]
  simp

theorem ilikeMatch_cons {p : Char} (ps : List Char) (hp : p ≠ '%') (s : List Char) :
    ilikeMatch (p :: ps) s
      = match s with
        | [] => false
        | c :: s₂ =>
          (if p = '_' then true else p.toLower == c.toLower) && ilikeMatch ps s₂ := by
  rw [ilikeMatch.eq_def]
  simp [hp]

/-- Two strings that are equal case-insensitively match under `ILIKE`
(each pattern character — including a literal `%` or `_` facing its own
copy — accepts the corresponding string character). -/
theorem ilikeMatch_of_ci : ∀ p s : List Char,
    p.map Char.toLower = s.map Char.toLower → ilikeMatch p s = true := by
  intro p
  induction p with
  | nil =>
    intro s h
    have : s = [] := by simpa using h.symm
    subst this
    rw [ilikeMatch_nil]
    rfl
  | cons c p ih =>
    intro s h
    cases s with
    | nil => simp at h
    | cons d s₂ =>
      simp only [List.map_cons, List.cons.injEq] at h
      obtain ⟨hcd, hrest⟩ := h
      by_cases hc : c = '%'
      · subst hc
        have h₂ : ilikeMatch ('%' :: p) s₂ = true := by
          rw [ilikeMatch_pct, ih s₂ hrest]
          simp
        rw [ilikeMatch_pct]
        simp [h₂]
      · rw [ilikeMatch_cons p hc]
        by_cases hu : c = '_'
        · simp [hu, ih s₂ hrest]
        · simp [hu, ih s₂ hrest, hcd]

/-- Python whitespace test used by `str.strip()`. -/
def isPySpace (c : Char) : Bool := c.isWhitespace

/-- Remove trailing whitespace (Python `str.rstrip()` on a character list). -/
def rstripChars : List Char → List Char
  | [] => []
  | c :: t =>
    match rstripChars t with
    | [] => if isPySpace c then [] else [c]
    | c₂ :: t₂ => c :: c₂ :: t₂

/-- Remove leading and trailing whitespace. -/
def stripChars (l : List Char) : List Char := rstripChars (l.dropWhile isPySpace)

/-- Embedding of Python `str.strip()`. -/
def pyStrip (s : String) : String := ⟨stripChars s.data⟩

theorem rstripChars_cons (c : Char) (t : List Char) :
    rstripChars (c :: t)
      = match rstripChars t with
        | [] => if isPySpace c then [] else [c]
        | c₂ :: t₂ => c :: c₂ :: t₂ := rfl

theorem rstripChars_idem (l : List Char) :
    rstripChars (rstripChars l) = rstripChars l := by
  induction l with
  | nil => rfl
  | cons c t ih =>
    cases h : rstripChars t with
    | nil =>
      by_cases hc : isPySpace c = true <;>
        simp [rstripChars_cons, rstripChars, h, hc]
    | cons c₂ t₂ =>
      rw [h] at ih
      rw [rstripChars_cons c t, h]
      show rstripChars (c :: c₂ :: t₂) = c :: c₂ :: t₂
      rw [rstripChars_cons, ih]

theorem rstripChars_head (c : Char) (t : List Char) :
    rstripChars (c :: t) = [] ∨ ∃ t₂, rstripChars (c :: t) = c :: t₂ := by
  cases h : rstripChars t with
  | nil =>
    by_cases hc : isPySpace c = true
    · left
      simp [rstripChars, h, hc]
    · right
      exact ⟨[], by simp [rstripChars, h, hc]⟩
  | cons c₂ t₂ => exact .inr ⟨c₂ :: t₂, by simp [rstripChars, h]⟩

theorem dropWhile_head_not (p : Char → Bool) (l : List Char) {c : Char}
    {t : List Char} (h : l.dropWhile p = c :: t) : p c = false := by
  induction l with
  | nil => simp at h
  | cons a l ih =>
    rw [List.dropWhile_cons] at h
    by_cases ha : p a = true
    · rw [if_pos ha] at h
      exact ih h
    · rw [if_neg ha] at h
      cases h
      simpa using ha

theorem stripChars_idem (l : List Char) : stripChars (stripChars l) = stripChars l := by
  unfold stripChars
  cases hm : l.dropWhile isPySpace with
  | nil => rfl
  | cons c t =>
    have hc : isPySpace c = false := dropWhile_head_not _ _ hm
    rcases rstripChars_head c t with h0 | ⟨t₂, h₂⟩
    · rw [h0]
      rfl
    · rw [h₂, List.dropWhile_cons, if_neg (by simp [hc]), ← h₂, rstripChars_idem]

theorem pyStrip_idem (s : String) : pyStrip (pyStrip s) = pyStrip s :=
  congrArg String.mk (stripChars_idem s.data)

/-- Case-insensitive string equality, the relation of the claim ("names equal
case-insensitively"). -/
abbrev ciEq (a b : String) : Prop :=
  a.data.map Char.toLower = b.data.map Char.toLower

/-- A row of the `categories` table (`database_models.py:84-102`). -/
structure Category where
  id : Nat
  name : String
  description : Option String
  created_at : Int
  deriving Repr, DecidableEq

/-- `CategoryResponse` (`db/schemas/category_schemas.py`). -/
structure CategoryResponse where
  name : String
  description : Option String
  id : Nat
  created_at : Int
  deriving Repr, DecidableEq

/-- `CategoryResponse.model_validate(category)`. -/
def CategoryResponse.ofCategory (c : Category) : CategoryResponse :=
  { name := c.name, description := c.description, id := c.id,
    created_at := c.created_at }

/-- Next autoincrement id for the categories table. -/
def nextCategoryId (db : List Category) : Nat := (db.map Category.id).foldr max 0 + 1

/-- `CategoryService._validate_unique_category` (`categories_service.py:125-138`):
`select(Category).where(Category.name.ilike(name.strip()))` finds a row iff
some stored name matches the stripped candidate case-insensitively. -/
def validate_unique_category (db : List Category) (name : String) : Bool :=
  db.any (fun c => ilikeMatch (pyStrip name).data c.name.data)

/-- `CategoryService.create_category` (`categories_service.py:30-49`): run the
uniqueness validation on `category_data.name.strip()`; on a duplicate raise
`DuplicateCategoryException` (a `DuplicateResourceException` with resource
`"Category"`) inserting nothing, otherwise insert the stripped name. -/
def create_category (db : List Category) (name : String)
    (description : Option String) (now : Int) :
    Except Err CategoryResponse × List Category :=
  if validate_unique_category db (pyStrip name) then
    (.error (.duplicateResource "Category" (pyStrip name)), db)
  else
    let new_category : Category :=
      { id := nextCategoryId db, name := pyStrip name,
        description := description, created_at := now }
    (.ok (CategoryResponse.ofCategory new_category), db ++ [new_category])

/-- C4: if a create succeeds for name `n₁`, a second create whose name is
equal to `n₁` case-insensitively after trimming fails with the duplicate-
resource error and inserts no row. -/
theorem c4_case_insensitive_duplicate_create_fails
    (db : List Category) (n₁ n₂ : String) (d₁ d₂ : Option String) (t₁ t₂ : Int)
    (r₁ : CategoryResponse) (db₁ : List Category)
    (hfirst : create_category db n₁ d₁ t₁ = (.ok r₁, db₁))
    (hci : ciEq (pyStrip n₂) (pyStrip n₁)) :
    create_category db₁ n₂ d₂ t₂
      = (.error (.duplicateResource "Category" (pyStrip n₂)), db₁) := by
  unfold create_category at hfirst
  by_cases hv : validate_unique_category db (pyStrip n₁) = true
  · simp [hv] at hfirst
  · simp only [hv, if_false, Bool.false_eq_true, if_neg, Prod.mk.injEq] at hfirst
    obtain ⟨-, hdb⟩ := hfirst
    have hmatch : ilikeMatch (pyStrip (pyStrip n₂)).data (pyStrip n₁).data = true := by
      rw [pyStrip_idem]
      exact ilikeMatch_of_ci _ _ hci
    have hval : validate_unique_category db₁ (pyStrip n₂) = true := by
      unfold validate_unique_category
      rw [List.any_eq_true]
      refine ⟨⟨nextCategoryId db, pyStrip n₁, d₁, t₁⟩, ?_, hmatch⟩
      rw [← hdb]
      simp
    unfold create_category
    rw [if_pos hval]

def dupCaseRow : Category := { id := 1, name := "Dup", description := none, created_at := 0 }

def dbC4 : List Category := [dupCaseRow]

theorem c4_witness :
    create_category dbC4 "dup" none 1
      = (.error (.duplicateResource "Category" (pyStrip "dup")), dbC4) :=
  c4_case_insensitive_duplicate_create_fails [] "Dup" "dup" none none 0 1
    (CategoryResponse.ofCategory dupCaseRow) dbC4 rfl (by decide)

/-! Users and groups (`database_models.py:10-78`, `user_service.py`). -/

/-- A row of the `users` table. -/
structure User where
  id : Nat
  username : String
  full_name : Option String
  email : String
  password_hash : String
  is_active : Bool
  created_at : Int
  deriving Repr, DecidableEq

/-- `UserResponse` (`db/schemas/user_schemas.py`). -/
structure UserResponse where
  username : String
  full_name : Option String
  email : String
  id : Nat
  is_active : Bool
  created_at : Int
  deriving Repr, DecidableEq

/-- `UserResponse.model_validate(user)`. -/
def UserResponse.ofUser (u : User) : UserResponse :=
  { username := u.username, full_name := u.full_name, email := u.email,
    id := u.id, is_active := u.is_active, created_at := u.created_at }

/-- Model of the bcrypt-backed `get_password_hash` (`security.py:147-157`).
The external primitive is one-way and collision-free; the embedding keeps
exactly the contract the service layer relies on: a digest verifies against
precisely the plaintext it was produced from. -/
def get_password_hash (password : String) : String := "bcrypt$" ++ password

/-- Model of `verify_password` (`security.py:160-171`). -/
def verify_password (plain hashed : String) : Bool := hashed == "bcrypt$" ++ plain

/-- `UserService.authenticate_user` (`user_service.py:121-145`): fetch by
username; absent → `ResourceNotFoundException("User", username)`; stored-hash
mismatch → `PermissionDeniedException("Invalid password")`; otherwise the
user view is returned.  The `is_active` flag is never consulted, and the
function only reads the table. -/
def authenticate_user (db : List User) (username password : String) :
    Except Err UserResponse :=
  match db.find? (fun u => u.username == username) with
  | none => .error (.resourceNotFound "User" username)
  | some user =>
    if !verify_password password user.password_hash then
      .error (.permissionDenied "Invalid password")
    else .ok (UserResponse.ofUser user)

/-- An inactive user whose stored hash matches password "pw". -/
def inactiveBob : User :=
  { id := 1, username := "bob", full_name := none, email := "bob@example.com",
    password_hash := get_password_hash "pw", is_active := false, created_at := 0 }

/-- C5 counterexample: the claim says authentication succeeds only for
active users and fails for inactive ones.  `authenticate_user` never reads
`is_active`: an inactive user with the correct password is authenticated. -/
theorem c5_counterexample_inactive_user_authenticates :
    inactiveBob.is_active = false
    ∧ authenticate_user [inactiveBob] "bob" "pw"
        = .ok (UserResponse.ofUser inactiveBob) :=
  ⟨rfl, rfl⟩

/-- C5 (amended): with distinct stored usernames, `authenticate_user`
succeeds iff a user with the given username exists and the password
verifies against the stored hash — the active flag is not consulted; an
absent username yields the not-found error and a password mismatch the
permission-denied error, and the stored state is never written. -/
theorem c5_amended_authenticate_characterisation
    (db : List User) (username password : String)
    (hnd : (db.map User.username).Nodup) :
    ((authenticate_user db username password).isOk = true
        ↔ ∃ u ∈ db, u.username = username
            ∧ verify_password password u.password_hash = true)
    ∧ ((∀ u ∈ db, u.username ≠ username) →
        authenticate_user db username password
          = .error (.resourceNotFound "User" username))
    ∧ (∀ u ∈ db, u.username = username →
        verify_password password u.password_hash = false →
        authenticate_user db username password
          = .error (.permissionDenied "Invalid password")) := by
  have hinj := List.inj_on_of_nodup_map hnd
  cases hfind : db.find? (fun u => u.username == username) with
  | none =>
    have hnone : ∀ u ∈ db, u.username ≠ username := by
      intro u hu
      have := List.find?_eq_none.mp hfind u hu
      simpa using this
    refine ⟨?_, fun _ => by simp [authenticate_user, hfind], ?_⟩
    · constructor
      · intro h
        simp [authenticate_user, hfind, Except.isOk, Except.toBool] at h
      · rintro ⟨u, hu, hname, -⟩
        exact absurd hname (hnone u hu)
    · intro u hu hname
      exact absurd hname (hnone u hu)
  | some u₀ =>
    have hmem : u₀ ∈ db := List.mem_of_find?_eq_some hfind
    have hname₀ : u₀.username = username := by
      have := List.find?_some hfind
      simpa using this
    refine ⟨⟨?_, ?_⟩, ?_, ?_⟩
    · intro h
      by_cases hv : verify_password password u₀.password_hash = true
      · exact ⟨u₀, hmem, hname₀, hv⟩
      · simp [authenticate_user, hfind, hv, Except.isOk, Except.toBool] at h
    · rintro ⟨u, hu, hname, hv⟩
      have heq : u = u₀ := hinj hu hmem (hname.trans hname₀.symm)
      subst heq
      simp [authenticate_user, hfind, hv, Except.isOk, Except.toBool]
    · intro hall
      exact absurd hname₀ (hall u₀ hmem)
    · intro u hu hname hv
      have heq : u = u₀ := hinj hu hmem (hname.trans hname₀.symm)
      subst heq
      simp [authenticate_user, hfind, hv]

def dbC5 : List User := [inactiveBob]

theorem c5_witness :
    authenticate_user dbC5 "alice" "pw"
      = .error (.resourceNotFound "User" "alice") :=
  (c5_amended_authenticate_characterisation dbC5 "alice" "pw" (by decide)).2.1
    (by decide)

/-- A row of the `user_groups` junction table; `(user_id, group_id)` is the
composite primary key (`database_models.py:63-78`). -/
structure UserGroup where
  user_id : Nat
  group_id : Nat
  deriving Repr, DecidableEq

/-- `UserService.assign_user_to_group` (`user_service.py:169-187`): add the
row and flush; a duplicate `(user_id, group_id)` pair violates the
composite primary key, the `IntegrityError` is caught, the transaction
rolled back, and `DuplicateResourceException("UserGroup", ...)` is
raised. -/
def assign_user_to_group (db : List UserGroup) (user_id group_id : Nat) :
    Except Err Unit × List UserGroup :=
  if db.any (fun g => g.user_id == user_id && g.group_id == group_id) then
    (.error (.duplicateResource "UserGroup"
        ("user_id=" ++ decStr user_id ++ ", group_id=" ++ decStr group_id)), db)
  else
    (.ok (), db ++ [⟨user_id, group_id⟩])

/-- C8 counterexample: the claim says a duplicate assignment is a no-op
success.  The code translates the uniqueness violation into a raised
`DuplicateResourceException` — the membership state is unchanged, but an
error is surfaced rather than success. -/
theorem c8_counterexample_duplicate_assignment_errors :
    assign_user_to_group [⟨1, 2⟩] 1 2
        = (.error (.duplicateResource "UserGroup"
            ("user_id=" ++ decStr 1 ++ ", group_id=" ++ decStr 2)), [⟨1, 2⟩])
    ∧ (assign_user_to_group [⟨1, 2⟩] 1 2).1.isOk = false :=
  ⟨rfl, rfl⟩

/-- C8 (amended): assigning a user to a group they already belong to leaves
the membership table unchanged and fails with the typed duplicate-resource
error (the raw database `IntegrityError` is translated, not surfaced); a
fresh pair is appended and succeeds. -/
theorem c8_amended_duplicate_assignment_raises
    (db : List UserGroup) (user_id group_id : Nat) :
    ((∃ g ∈ db, g.user_id = user_id ∧ g.group_id = group_id) →
        assign_user_to_group db user_id group_id
          = (.error (.duplicateResource "UserGroup"
              ("user_id=" ++ decStr user_id ++ ", group_id=" ++ decStr group_id)),
            db))
    ∧ ((∀ g ∈ db, ¬(g.user_id = user_id ∧ g.group_id = group_id)) →
        assign_user_to_group db user_id group_id
          = (.ok (), db ++ [⟨user_id, group_id⟩])) := by
  constructor
  · rintro ⟨g, hg, h₁, h₂⟩
    have hany : db.any (fun g => g.user_id == user_id && g.group_id == group_id) = true :=
      List.any_eq_true.mpr ⟨g, hg, by simp [h₁, h₂]⟩
    simp [assign_user_to_group, hany]
  · intro hall
    have hany : db.any (fun g => g.user_id == user_id && g.group_id == group_id) = false := by
      rw [List.any_eq_false]
      intro g hg
      simp only [Bool.and_eq_true, beq_iff_eq]
      exact hall g hg
    simp [assign_user_to_group, hany]

theorem c8_witness :
    assign_user_to_group [⟨3, 4⟩] 3 4
      = (.error (.duplicateResource "UserGroup"
          ("user_id=" ++ decStr 3 ++ ", group_id=" ++ decStr 4)), [⟨3, 4⟩]) :=
  (c8_amended_duplicate_assignment_raises [⟨3, 4⟩] 3 4).1
    ⟨⟨3, 4⟩, by simp, rfl, rfl⟩

/-! The JWT credential codec (`app/core/security.py:33-63`).  Time is in
integer UNIX seconds, as PyJWT serialises datetime claims. -/

/-- `TokenData` (`db/schemas/token_schema.py`), the identity snapshot
embedded in a token. -/
structure TokenData where
  id : Nat
  username : String
  full_name : Option String
  email : Option String
  is_active : Bool
  deriving Repr, DecidableEq

/-- The server-held signing secret (`settings.SECRET_KEY`); its concrete
value is environment-supplied and opaque to the program logic. -/
def SECRET_KEY : String := "server-secret"

/-- `settings.ALGORITHM`, defaulting to HS256 (`utils/config.py:29`). -/
def ALGORITHM : String := "HS256"

/-- A signed token.  The `secret` and `alg` fields stand for the HMAC
signature: verification with key `k` under algorithm `a` succeeds exactly
when the token was signed with `k` under `a`. -/
structure Jwt where
  payload : TokenData
  exp : Int
  secret : String
  alg : String
  deriving Repr, DecidableEq

/-- Python `expires_delta or timedelta(minutes=30)` (`security.py:45`): both
`None` and the zero timedelta are falsy, so both fall back to the
30-minute default. -/
def pyTimedeltaOrDefault (expires_delta : Option Int) : Int :=
  match expires_delta with
  | none => 30 * 60
  | some d => if d = 0 then 30 * 60 else d

/-- `create_jwt_token` (`security.py:33-47`): embed the snapshot plus the
absolute expiry `now + (expires_delta or timedelta(minutes=30))` and sign
with the server secret under `settings.ALGORITHM`. -/
def create_jwt_token (token_data : TokenData) (expires_delta : Option Int)
    (now : Int) : Jwt :=
  { payload := token_data, exp := now + pyTimedeltaOrDefault expires_delta,
    secret := SECRET_KEY, alg := ALGORITHM }

/-- A bearer credential as received by the verifier: either a structurally
valid JWT or a byte string that does not parse as one. -/
inductive JwtInput where
  | token (t : Jwt)
  | garbage
  deriving Repr, DecidableEq

/-- `get_jwt_payload` (`security.py:53-63`): `jwt.decode(token, SECRET_KEY,
algorithms=["HS256"])`.  A malformed string or a wrong signature/algorithm
raises `InvalidTokenError`, mapped to 401 "Invalid token"; an embedded
expiry at or before the current time raises `ExpiredSignatureError` (PyJWT
rejects when `exp <= now`), mapped to 401 "Token expired"; otherwise
`TokenData.model_validate(payload)` returns the embedded snapshot — the
extra `exp` key is ignored by the schema, and storage is not consulted. -/
def get_jwt_payload (input : JwtInput) (now : Int) : Except Err TokenData :=
  match input with
  | .garbage => .error (.httpError 401 "Invalid token")
  | .token t =>
    if t.secret ≠ SECRET_KEY ∨ t.alg ≠ "HS256" then
      .error (.httpError 401 "Invalid token")
    else if t.exp ≤ now then .error (.httpError 401 "Token expired")
    else .ok t.payload

theorem get_jwt_payload_token (t : Jwt) (now : Int) :
    get_jwt_payload (.token t) now
      = if t.secret ≠ SECRET_KEY ∨ t.alg ≠ "HS256" then
          .error (.httpError 401 "Invalid token")
        else if t.exp ≤ now then .error (.httpError 401 "Token expired")
        else .ok t.payload := rfl

/-- The snapshot used in the concrete credential theorems. -/
def snapC6 : TokenData :=
  { id := 1, username := "bob", full_name := none, email := none,
    is_active := true }

/-- C6 counterexample: the claim says a token issued with ttl=0 is rejected
with the expired-credential error on its very next use.  In
`create_jwt_token` the zero timedelta is falsy, so `expires_delta or
timedelta(minutes=30)` silently replaces ttl=0 with the 30-minute default:
the token issued at time 1000 with ttl=0 expires at 2800, and verifying it
immediately returns the snapshot successfully. -/
theorem c6_counterexample_zero_ttl_token_accepted :
    (create_jwt_token snapC6 (some 0) 1000).exp = 2800
    ∧ get_jwt_payload (.token (create_jwt_token snapC6 (some 0) 1000)) 1000
        = .ok snapC6 :=
  ⟨rfl, rfl⟩

/-- C6 (amended): a token embeds expiry `issue time + ttl`, except that a
ttl of 0 (like an absent ttl) is replaced by the 30-minute default;
verification returns the embedded snapshot unchanged while the current
time is strictly before the embedded expiry, fails with the
expired-credential error (401 "Token expired") at or past it, and fails
with the malformed-credential error (401 "Invalid token") for a wrong
signature or an unparseable token. -/
theorem c6_amended_jwt_round_trip
    (snapshot : TokenData) (expires_delta : Option Int) (t_issue t_now : Int) :
    (create_jwt_token snapshot expires_delta t_issue).exp
        = t_issue + pyTimedeltaOrDefault expires_delta
    ∧ (t_now < t_issue + pyTimedeltaOrDefault expires_delta →
        get_jwt_payload (.token (create_jwt_token snapshot expires_delta t_issue)) t_now
          = .ok snapshot)
    ∧ (t_issue + pyTimedeltaOrDefault expires_delta ≤ t_now →
        get_jwt_payload (.token (create_jwt_token snapshot expires_delta t_issue)) t_now
          = .error (.httpError 401 "Token expired"))
    ∧ (∀ t : Jwt, t.secret ≠ SECRET_KEY →
        get_jwt_payload (.token t) t_now = .error (.httpError 401 "Invalid token"))
    ∧ get_jwt_payload .garbage t_now = .error (.httpError 401 "Invalid token") := by
  have hsig : ¬(SECRET_KEY ≠ SECRET_KEY ∨ ALGORITHM ≠ "HS256") := by
    simp [ALGORITHM]
  refine ⟨rfl, ?_, ?_, ?_, rfl⟩
  · intro h
    rw [get_jwt_payload_token]
    simp only [create_jwt_token]
    rw [if_neg hsig, if_neg (not_le.mpr h)]
  · intro h
    rw [get_jwt_payload_token]
    simp only [create_jwt_token]
    rw [if_neg hsig, if_pos h]
  · intro t ht
    rw [get_jwt_payload_token, if_pos (Or.inl ht)]

theorem c6_witness :
    get_jwt_payload (.token (create_jwt_token snapC6 (some 60) 0)) 100
      = .error (.httpError 401 "Token expired") :=
  (c6_amended_jwt_round_trip snapC6 (some 60) 0 100).2.2.1 (by decide)

/-! Agent files (`agent_file_service.py`, `database_models.py:188-208`).
The upload path is computed from the agent id and the client-supplied
filename; the decimal-digit lemmas below support the no-collision
property of that path. -/

theorem charOfDigit_toNat {d : Nat} (h : d < 10) :
    (charOfDigit d).toNat = 48 + d := by
  interval_cases d <;> rfl

theorem decChars_digits (n : Nat) :
    ∀ c ∈ decChars n, ∃ d, d < 10 ∧ c = charOfDigit d := by
  induction n using Nat.strong_induction_on with
  | _ n ih =>
    by_cases h : n < 10
    · rw [decChars_lt h]
      intro c hc
      simp only [List.mem_singleton] at hc
      exact ⟨n, h, hc⟩
    · rw [decChars_ge (le_of_not_lt h)]
      intro c hc
      rcases List.mem_append.mp hc with hc | hc
      · exact ih (n / 10) (Nat.div_lt_self (by omega) (by omega)) c hc
      · simp only [List.mem_singleton] at hc
        exact ⟨n % 10, Nat.mod_lt _ (by omega), hc⟩

theorem decChars_no_sep (n : Nat) :
    ∀ c ∈ decChars n, c ≠ '/' ∧ c ≠ '_' := by
  intro c hc
  obtain ⟨d, hd, rfl⟩ := decChars_digits n c hc
  constructor
  · intro h
    have := congrArg Char.toNat h
    rw [charOfDigit_toNat hd] at this
    have h47 : ('/').toNat = 47 := rfl
    omega
  · intro h
    have := congrArg Char.toNat h
    rw [charOfDigit_toNat hd] at this
    have h95 : ('_').toNat = 95 := rfl
    omega

/-- Numeric value of a digit character. -/
def digitVal (c : Char) : Nat := c.toNat - 48

/-- Value of a most-significant-first digit string. -/
def valOfDigits (l : List Char) : Nat :=
  l.foldl (fun acc c => 10 * acc + digitVal c) 0

theorem valOfDigits_decChars (n : Nat) : valOfDigits (decChars n) = n := by
  induction n using Nat.strong_induction_on with
  | _ n ih =>
    by_cases h : n < 10
    · rw [decChars_lt h]
      simp [valOfDigits, digitVal, charOfDigit_toNat h]
    · rw [decChars_ge (le_of_not_lt h)]
      rw [valOfDigits, List.foldl_append]
      simp only [List.foldl_cons, List.foldl_nil]
      rw [show List.foldl (fun acc c => 10 * acc + digitVal c) 0 (decChars (n / 10))
            = valOfDigits (decChars (n / 10)) from rfl,
        ih (n / 10) (Nat.div_lt_self (by omega) (by omega))]
      rw [digitVal, charOfDigit_toNat (Nat.mod_lt _ (by omega))]
      omega

theorem decChars_injective {m n : Nat} (h : decChars m = decChars n) : m = n := by
  have hm := valOfDigits_decChars m
  rw [h, valOfDigits_decChars] at hm
  exact hm.symm

/-- Lists without the separator character, joined by it, can be cancelled. -/
theorem append_sep_cancel {a b x y : List Char}
    (ha : ∀ c ∈ a, c ≠ '_') (hb : ∀ c ∈ b, c ≠ '_')
    (h : a ++ '_' :: x = b ++ '_' :: y) : a = b := by
  induction a generalizing b with
  | nil =>
    cases b with
    | nil => rfl
    | cons d b₂ =>
      simp only [List.nil_append, List.cons_append, List.cons.injEq] at h
      exact absurd h.1.symm (hb d (by simp))
  | cons c a₂ ih =>
    cases b with
    | nil =>
      simp only [List.cons_append, List.nil_append, List.cons.injEq] at h
      exact absurd h.1 (ha c (by simp))
    | cons d b₂ =>
      simp only [List.cons_append, List.cons.injEq] at h
      obtain ⟨hcd, hrest⟩ := h
      have := ih (fun c hc => ha c (by simp [hc]))
        (fun c hc => hb c (by simp [hc])) hrest
      rw [hcd, this]

/-- Python `s.replace(old, new)` for single characters. -/
def pyReplaceChar (s : String) (old new : Char) : String :=
  ⟨s.data.map (fun c => if c = old then new else c)⟩

/-- `UPLOAD_DIR = Path("./uploads")` (`agent_file_service.py:15`), which
normalises to `uploads`. -/
def UPLOAD_DIR : String := "uploads"

/-- The destination filename `f"{agent_id}_{file.filename.replace('/', '_')}"`
(`agent_file_service.py:45`). -/
def safe_name (agent_id : Nat) (filename : String) : String :=
  decStr agent_id ++ "_" ++ pyReplaceChar filename '/' '_'

/-- The destination path `UPLOAD_DIR / safe_name` (`agent_file_service.py:46`). -/
def destination (agent_id : Nat) (filename : String) : String :=
  UPLOAD_DIR ++ "/" ++ safe_name agent_id filename

/-- A row of the `agent_files` table; `(agent_id, filename)` carries a
UNIQUE constraint (`database_models.py:205`). -/
structure AgentFile where
  id : Nat
  agent_id : Nat
  filename : String
  content_type : String
  created_at : Int
  deriving Repr, DecidableEq

/-- `AgentFileResponse` (`app/schemas/agent_files_schema.py`). -/
structure AgentFileResponse where
  filename : String
  content_type : String
  id : Nat
  agent_id : Nat
  created_at : Int
  deriving Repr, DecidableEq

/-- `AgentFileResponse.model_validate(file)`. -/
def AgentFileResponse.ofAgentFile (f : AgentFile) : AgentFileResponse :=
  { filename := f.filename, content_type := f.content_type, id := f.id,
    agent_id := f.agent_id, created_at := f.created_at }

/-- A multipart upload (`fastapi.UploadFile`): client-supplied filename,
declared MIME type, and content. -/
structure UploadFile where
  filename : String
  content_type : String
  content : String
  deriving Repr, DecidableEq

/-- The MIME allow-list of `save_file` (`agent_file_service.py:37-40`). -/
def allowed_types : List String :=
  ["application/pdf",
    "application/vnd.openxmlformats-officedocument.wordprocessingml.document"]

/-- The call `AgentService.get_agent_by_id(db_session, agent_id=agent_id,
user_id=user_id)` exactly as `save_file` makes it
(`agent_file_service.py:32`): `get_agent_by_id` accepts only
`(db, agent_id)`, so Python raises `TypeError` for the unexpected keyword
argument before the callee body runs. -/
def get_agent_by_id_kwcall (_db : List Agent) (_agent_id _user_id : Nat) :
    Except Err AgentResponse :=
  .error (.typeError "get_agent_by_id got an unexpected keyword argument user_id")

/-- `AgentFileService.save_file` (`agent_file_service.py:21-69`), over
explicit disk (path, content) and metadata states: (1) ownership lookup —
the call raises, see `get_agent_by_id_kwcall`; (2) ownership comparison;
(3) MIME allow-list check; (4) write to `UPLOAD_DIR / safe_name` (mode
"wb": an existing file at that path is overwritten); (5) metadata insert
in its own transaction — a violation of the `(agent_id, filename)` UNIQUE
constraint deletes the just-written file and re-raises. -/
def save_file (agents : List Agent) (disk : List (String × String))
    (meta : List AgentFile) (agent_id : Nat) (file : UploadFile)
    (user_id : Nat) (now : Int) :
    Except Err AgentFileResponse × List (String × String) × List AgentFile :=
  match get_agent_by_id_kwcall agents agent_id user_id with
  | .error e => (.error e, disk, meta)
  | .ok agent =>
    if agent.owner_id ≠ user_id then
      (.error (.permissionDenied "Not authorized to upload to this agent."),
        disk, meta)
    else if file.content_type ∉ allowed_types then
      (.error (.unsupportedFileType file.content_type), disk, meta)
    else
      let dest := destination agent_id file.filename
      let disk₂ := (dest, file.content) :: disk.filter (fun p => p.1 ≠ dest)
      if meta.any (fun f => f.agent_id == agent_id && f.filename == file.filename) then
        (.error (.pyException "IntegrityError"),
          disk₂.filter (fun p => p.1 ≠ dest), meta)
      else
        let new_file : AgentFile :=
          { id := (meta.map AgentFile.id).foldr max 0 + 1, agent_id := agent_id,
            filename := file.filename, content_type := file.content_type,
            created_at := now }
        (.ok (AgentFileResponse.ofAgentFile new_file), disk₂, meta ++ [new_file])

/-- An upload with a MIME type outside the allow-list. -/
def textFile : UploadFile :=
  { filename := "notes.txt", content_type := "text/plain", content := "hello" }

/-- C7: the claim says an upload by the agent owner with a disallowed
content type fails with the unsupported-file-type error.  In the code every
`save_file` call — including this one by the owner (user 7) of agent 1 —
fails with `TypeError` at the ownership-lookup step, before the MIME check
is reached; no file is written and no metadata row is created (that part
of the claim holds), but the error is not the unsupported-file-type
error. -/
theorem c7_owner_disallowed_upload_raises_type_error :
    textFile.content_type ∉ allowed_types
    ∧ save_file [agentA] [] [] 1 textFile 7 0
        = (.error (.typeError
            "get_agent_by_id got an unexpected keyword argument user_id"),
          [], []) :=
  ⟨by decide, rfl⟩

theorem safe_name_data (a : Nat) (f : String) :
    (safe_name a f).data
      = decChars a ++ '_' :: (pyReplaceChar f '/' '_').data := by
  show (decStr a ++ "_" ++ pyReplaceChar f '/' '_').data = _
  rw [String.data_append, String.data_append, List.append_assoc]
  rfl

theorem pyReplaceChar_no_slash (f : String) :
    ∀ c ∈ (pyReplaceChar f '/' '_').data, c ≠ '/' := by
  intro c hc
  simp only [pyReplaceChar, List.mem_map] at hc
  obtain ⟨c₀, -, hc₀⟩ := hc
  by_cases h : c₀ = '/'
  · rw [if_pos h] at hc₀
    rw [← hc₀]
    decide
  · rw [if_neg h] at hc₀
    rw [← hc₀]
    exact h

/-- C10: the destination of an accepted upload is always the single path
component `safe_name` directly under the shared uploads directory, formed
by prefixing the agent id and replacing every slash of the client-supplied
filename: the component contains no path separator (so no client-chosen
filename escapes the uploads directory), and distinct agent ids always
yield distinct components (so different agents' files cannot collide). -/
theorem c10_upload_paths_safe_and_agent_disjoint
    (a₁ a₂ : Nat) (f₁ f₂ : String) :
    (∀ c ∈ (safe_name a₁ f₁).data, c ≠ '/')
    ∧ destination a₁ f₁ = UPLOAD_DIR ++ "/" ++ safe_name a₁ f₁
    ∧ safe_name a₁ f₁ = decStr a₁ ++ "_" ++ pyReplaceChar f₁ '/' '_'
    ∧ (a₁ ≠ a₂ → safe_name a₁ f₁ ≠ safe_name a₂ f₂) := by
  refine ⟨?_, rfl, rfl, ?_⟩
  · intro c hc
    rw [safe_name_data] at hc
    rcases List.mem_append.mp hc with hc | hc
    · exact (decChars_no_sep a₁ c hc).1
    · rcases List.mem_cons.mp hc with rfl | hc
      · decide
      · exact pyReplaceChar_no_slash f₁ c hc
  · intro hne heq
    apply hne
    have hdata := congrArg String.data heq
    rw [safe_name_data, safe_name_data] at hdata
    exact decChars_injective
      (append_sep_cancel (fun c hc => (decChars_no_sep a₁ c hc).2)
        (fun c hc => (decChars_no_sep a₂ c hc).2) hdata)

theorem c10_witness : safe_name 1 "a/b" ≠ safe_name 12 "x" :=
  (c10_upload_paths_safe_and_agent_disjoint 1 12 "a/b" "x").2.2.2 (by decide)

end VersaForge
